import Mathlib

/-!
Shallow embedding of `tools/datasets/corpora.py` (dataset preparation
pipeline of the gpt-neox repository).

External effects (directory creation, wget fetches, the transform
subprocess invocation, zip-archive writes) are modelled as an explicit
event trace; the filesystem and the exit statuses of the external
collaborators are inputs.  Python exceptions are modelled with
`Except PrepError`.
-/

namespace Corpora

/-- Ambient process environment: the DATA_DIR environment variable and
the machine's CPU count (`multiprocessing.cpu_count()`). -/
structure Env where
  dataDirEnv : Option String
  cpuCount : Nat
  deriving Repr

/-- Read-only view of the filesystem consulted by the code
(`os.path.isdir`, `os.path.isfile`, `os.listdir`). -/
structure FS where
  isDir : String → Bool
  isFile : String → Bool
  listDir : String → List String

/-- Observable external effects performed by the pipeline. -/
inductive Event where
  | mkdir (path : String)
  | fetch (url : String) (dest : String)
  | transform (input : String) (outPref : String) (vocab : String)
      (tok : String) (mergeF : String) (workers : Nat)
      (numDocs : Option Nat) (ftfy : Bool) (exitCode : Int)
  | writeZip (path : String) (entries : List (String × String))
  | remove (path : String)
  deriving Repr, DecidableEq

/-- Errors raised by the pipeline (Python exceptions / assertion errors). -/
inductive PrepError where
  | unknownDataset (name : String) (knownNames : List String)
  | noVocabFile
  | noTextFile (dir : String)
  | downloadError (url : String)
  | typeError
  deriving Repr, DecidableEq

/-- Python `str.endswith`. -/
def strEndsWith (s suffix : String) : Bool :=
  suffix.data.isSuffixOf s.data

/-- Python `str.startswith`. -/
def strStartsWith (s pre : String) : Bool :=
  pre.data.isPrefixOf s.data

/-- `os.path.basename`: everything after the last slash. -/
def basename (p : String) : String :=
  String.mk ((p.data.reverse.takeWhile (fun c => c ≠ '/')).reverse)

/-- `os.path.join` for two components (POSIX). -/
def pathJoin (a b : String) : String :=
  if strStartsWith b "/" then b
  else if a = "" then b
  else if strEndsWith a "/" then a ++ b
  else a ++ "/" ++ b

/-- Python `s.split('/')[0]`: the prefix of `s` before the first slash. -/
def firstComponent (s : String) : String :=
  String.mk (s.data.takeWhile (fun c => c ≠ '/'))

/-- Python `str.lower` (ASCII). -/
def strToLower (s : String) : String :=
  String.mk (s.data.map Char.toLower)

/-- Python f-string rendering of a value that may be `None`. -/
def optStr : Option String → String
  | none => "None"
  | some s => s

/-- Instance state set up by `DataDownloader.__init__`. -/
structure Descriptor where
  tokenizer_type : String
  merge_file : String
  vocab_file : Option String
  data_dir : String
  force_redownload : Bool
  num_workers : Nat
  dataset_name : Option String
  deriving Repr, DecidableEq

/-- Class-level attributes of a `DataDownloader` subclass: `name`,
`urls` (the `CustomDataset` subclass sets `urls = None`), `num_docs`,
`ftfy`. -/
structure DatasetClass where
  name : String
  urls : Option (List String)
  num_docs : Option Nat := none
  ftfy : Bool := false
  deriving Repr, DecidableEq

/-- The vocab-file default-resolution block of `__init__`: the
`if vocab_file is None` branch ladder over the tokenizer type.  The
`assert vocab_file is not None` failure becomes `PrepError.noVocabFile`. -/
def resolveVocab (tt dd : String) (vocab_file : Option String) :
    Except PrepError (Option String) :=
  match vocab_file with
  | some v => .ok (some v)
  | none =>
      if tt = "GPT2BPETokenizer" then .ok (some (dd ++ "/gpt2-vocab.json"))
      else if tt = "HFGPT2Tokenizer" then .ok (some "gpt2")
      else if tt = "CharLevelTokenizer" then .ok none
      else .error .noVocabFile

def initDownloader (tokenizer_type merge_file vocab_file data_dir : Option String)
    (force_redownload : Option Bool) (num_workers : Option Nat)
    (dataset_name : Option String) (env : Env) : Except PrepError Descriptor :=
  let tt := tokenizer_type.getD "GPT2BPETokenizer"
  let dd := data_dir.getD (env.dataDirEnv.getD "./data")
  let mf := merge_file.getD (dd ++ "/gpt2-merges.txt")
  let fr := force_redownload.getD false
  match resolveVocab tt dd vocab_file with
  | .error e => .error e
  | .ok vf =>
      .ok { tokenizer_type := tt, merge_file := mf, vocab_file := vf,
            data_dir := dd, force_redownload := fr,
            num_workers := num_workers.getD env.cpuCount,
            dataset_name := dataset_name }

/-- `DataDownloader.exists`: `os.path.isdir(f"{base_dir}/{name}")`. -/
def dsExists (cls : DatasetClass) (d : Descriptor) (fs : FS) : Bool :=
  fs.isDir (d.data_dir ++ "/" ++ cls.name)

/-- The wget loop inside `DataDownloader.download`: every URL up to and
including the first one whose fetch exits non-zero is fetched; the first
non-zero exit raises. -/
def fetchList (fe : String → Int) (dir : String) : List String → List Event × Except PrepError Unit
  | [] => ([], .ok ())
  | u :: rest =>
      if fe u = 0 then
        (Event.fetch u (pathJoin dir (basename u)) :: (fetchList fe dir rest).1,
         (fetchList fe dir rest).2)
      else
        ([Event.fetch u (pathJoin dir (basename u))], .error (.downloadError u))

/-- `DataDownloader.download`.  The filesystem is passed but never
consulted: the code performs no per-file existence check.  Iterating
`urls = None` (the `CustomDataset` class) would raise a `TypeError`. -/
def download (cls : DatasetClass) (d : Descriptor) (fe : String → Int) (fs : FS) :
    List Event × Except PrepError Unit :=
  let dir := pathJoin d.data_dir cls.name
  match cls.urls with
  | none => ([Event.mkdir dir], .error .typeError)
  | some us =>
      (Event.mkdir dir :: (fetchList fe dir us).1, (fetchList fe dir us).2)

/-- The comma-joined default input list of `DataDownloader.tokenize`. -/
def urlsInput (cls : DatasetClass) (d : Descriptor) (us : List String) : String :=
  String.intercalate ","
    (us.map fun u => pathJoin (pathJoin d.data_dir cls.name) (basename u))

/-- The transform subprocess invocation built by `DataDownloader.tokenize`. -/
def transformEvent (cls : DatasetClass) (d : Descriptor) (input : String) (te : Int) : Event :=
  Event.transform input (pathJoin d.data_dir cls.name ++ "/" ++ cls.name)
    (optStr d.vocab_file) d.tokenizer_type d.merge_file d.num_workers
    cls.num_docs cls.ftfy te

/-- `DataDownloader.tokenize`: runs the external preprocess script via
`os.system` and ignores its exit status `te`. -/
def tokenize (cls : DatasetClass) (d : Descriptor) (te : Int) (jsonl : Option String) :
    List Event × Except PrepError Unit :=
  match jsonl with
  | some p => ([transformEvent cls d p te], .ok ())
  | none =>
      match cls.urls with
      | none => ([], .error .typeError)
      | some us => ([transformEvent cls d (urlsInput cls d us) te], .ok ())

/-- The list comprehension in `customdataset_from_text`:
`[f for f in os.listdir(base_dir) if f.endswith('.txt') and f != "gpt2-merges.txt"]`. -/
def qualifyingTxtFiles (d : Descriptor) (fs : FS) : List String :=
  (fs.listDir d.data_dir).filter fun f =>
    strEndsWith f ".txt" && f != "gpt2-merges.txt"

/-- `DataDownloader.customdataset_from_text`: creates the dataset
directory, scans the base dir for qualifying text files, asserts the
list is non-empty, then writes the zip archive at the hardcoded
`/content/gpt-neox/data/text_file.zip`, each file under its basename. -/
def customdataset_from_text (cls : DatasetClass) (d : Descriptor) (fs : FS) :
    List Event × Except PrepError Unit :=
  let dir := pathJoin d.data_dir cls.name
  let zip_file_path := "/content/gpt-neox/data/text_file.zip"
  let txt_files := qualifyingTxtFiles d fs
  if txt_files.isEmpty then
    ([Event.mkdir dir], .error (.noTextFile d.data_dir))
  else
    ([Event.mkdir dir,
      Event.writeZip zip_file_path (txt_files.map fun f =>
        (pathJoin d.data_dir f, basename (pathJoin d.data_dir f)))],
     .ok ())

/-- Sequencing of two effectful steps: the second runs only when the
first did not raise. -/
def seqOps (a : List Event × Except PrepError Unit)
    (b : Unit → List Event × Except PrepError Unit) :
    List Event × Except PrepError Unit :=
  match a.2 with
  | .error e => (a.1, .error e)
  | .ok _ => (a.1 ++ (b ()).1, (b ()).2)

/-- `DataDownloader.prepare`: the three-branch orchestrator. -/
def prepare (cls : DatasetClass) (d : Descriptor) (fs : FS) (fe : String → Int) (te : Int) :
    List Event × Except PrepError Unit :=
  if cls.name = "customdataset" then
    seqOps (customdataset_from_text cls d fs) fun _ =>
      tokenize cls d te
        (some (pathJoin (pathJoin d.data_dir cls.name) (cls.name ++ ".zip")))
  else if d.force_redownload then
    seqOps (download cls d fe fs) fun _ => tokenize cls d te none
  else if dsExists cls d fs then
    tokenize cls d te none
  else
    seqOps (download cls d fe fs) fun _ => tokenize cls d te none

/-- Zero-padded decimal rendering, Python `f"{i:0Nd}"`. -/
def padNum (w : Nat) (i : Nat) : String :=
  let s := Nat.repr i
  String.mk (List.replicate (w - s.length) '0' ++ s.data)

def Enron : DatasetClass :=
  { name := "enron", urls := some ["http://eaidata.bmk.sh/data/enron_emails.jsonl.zst"],
    num_docs := some 517401 }

def PileSubset : DatasetClass :=
  { name := "pile_00", urls := some ["https://the-eye.eu/public/AI/pile/train/00.jsonl.zst"] }

def Pile : DatasetClass :=
  { name := "pile",
    urls := some ((List.range 30).map fun i =>
      "https://the-eye.eu/public/AI/pile/train/" ++ padNum 2 i ++ ".jsonl.zst") }

def Github : DatasetClass :=
  { name := "github", urls := some ["http://eaidata.bmk.sh/data/github_small.jsonl.zst"] }

def ArXiv : DatasetClass :=
  { name := "arxiv",
    urls := some ["https://the-eye.eu/public/AI/pile_preliminary_components/2020-09-08-arxiv-extracts-nofallback-until-2007-068.tar.gz"] }

def EuroParl : DatasetClass :=
  { name := "europarl",
    urls := some ["https://the-eye.eu/public/AI/pile_preliminary_components/EuroParliamentProceedings_1996_2011.jsonl.zst"] }

def FreeLaw : DatasetClass :=
  { name := "freelaw",
    urls := some ["https://the-eye.eu/public/AI/pile_preliminary_components/FreeLaw_Opinions.jsonl.zst"] }

def NiH : DatasetClass :=
  { name := "nih",
    urls := some ["https://the-eye.eu/public/AI/pile_preliminary_components/NIH_ExPORTER_awarded_grant_text.jsonl.zst"] }

def PubMed : DatasetClass :=
  { name := "pubmed",
    urls := some ["https://the-eye.eu/public/AI/pile_preliminary_components/PMC_extracts.tar.gz"] }

def Books1 : DatasetClass :=
  { name := "books1",
    urls := some ["https://the-eye.eu/public/AI/pile_preliminary_components/books1.tar.gz"] }

def Books3 : DatasetClass :=
  { name := "books3",
    urls := some ["https://the-eye.eu/public/AI/pile_preliminary_components/books3.tar.gz"] }

def HackerNews : DatasetClass :=
  { name := "hackernews",
    urls := some ["https://the-eye.eu/public/AI/pile_preliminary_components/hn.tar.gz"],
    num_docs := some 373000 }

def OpenWebText2 : DatasetClass :=
  { name := "openwebtext2",
    urls := some ["https://huggingface.co/datasets/segyges/OpenWebText2/resolve/main/openwebtext2.jsonl.zst.tar"],
    num_docs := some 17103000 }

def StackExchange : DatasetClass :=
  { name := "stackexchange",
    urls := some ["https://the-eye.eu/public/AI/pile_preliminary_components/stackexchange_dataset.tar"] }

def UbuntuIRC : DatasetClass :=
  { name := "ubuntu_irc",
    urls := some ["https://the-eye.eu/public/AI/pile_preliminary_components/ubuntu_irc_until_2020_9_1.jsonl.zst"] }

def YoutubeSubtitles : DatasetClass :=
  { name := "youtube_subtitles",
    urls := some ["https://the-eye.eu/public/AI/pile_preliminary_components/yt_subs.jsonl.zst"] }

def C4 : DatasetClass :=
  { name := "c4",
    urls := some ((List.range 1024).map fun i =>
      "https://the-eye.eu/eleuther_staging/c4/en/c4-train." ++ padNum 5 i ++ "-of-01024.json.gz") }

def C4OpenWebText : DatasetClass :=
  { name := "c4_openwebtext",
    urls := some ((List.range 512).map fun i =>
      "https://the-eye.eu/eleuther_staging/c4/realnewslike/c4-train." ++ padNum 5 i ++ "-of-00512.json.gz") }

def CustomDataset : DatasetClass :=
  { name := "customdataset", urls := none }

/-- An entry of the registry dict: either the `"pass"` sentinel string
or a `DataDownloader` subclass. -/
inductive RegistryEntry where
  | passSentinel
  | dataCls (c : DatasetClass)
  deriving Repr, DecidableEq

/-- The `DATA_DOWNLOADERS` dict, in declaration order. -/
def DATA_DOWNLOADERS : List (String × RegistryEntry) :=
  [("pass", .passSentinel),
   ("enron", .dataCls Enron),
   ("pile_subset", .dataCls PileSubset),
   ("pile", .dataCls Pile),
   ("github", .dataCls Github),
   ("arxiv", .dataCls ArXiv),
   ("europarl", .dataCls EuroParl),
   ("freelaw", .dataCls FreeLaw),
   ("nih", .dataCls NiH),
   ("pubmed", .dataCls PubMed),
   ("books1", .dataCls Books1),
   ("books3", .dataCls Books3),
   ("hackernews", .dataCls HackerNews),
   ("openwebtext2", .dataCls OpenWebText2),
   ("stackexchange", .dataCls StackExchange),
   ("ubuntu_irc", .dataCls UbuntuIRC),
   ("youtube_subtitles", .dataCls YoutubeSubtitles),
   ("c4", .dataCls C4),
   ("c4_openwebtext", .dataCls C4OpenWebText),
   ("customdataset", .dataCls CustomDataset)]

/-- `list(DATA_DOWNLOADERS.keys())`, used in the unrecognized-dataset
error message. -/
def knownKeys : List String := DATA_DOWNLOADERS.map Prod.fst

def GPT2_VOCAB_URL : String :=
  "https://huggingface.co/datasets/RaviChandera/gpt2-vocab/raw/main/gpt2-vocab.json"

def GPT2_MERGE_URL : String :=
  "https://huggingface.co/datasets/RaviChandera/gpt2-merges/raw/main/gpt2-merges.txt"

/-- `maybe_download_gpt2_tokenizer_data`: for the (default) GPT2 BPE
tokenizer, wget the shared vocab/merge files when absent.  The exit
status of `os.system` is ignored, so only the fetch events matter.
Note the doubled slash in the vocab path, as in the source. -/
def maybe_download_gpt2_tokenizer_data (tokenizer_type : Option String)
    (data_dir : String) (fs : FS) : List Event :=
  if tokenizer_type = none ∨ tokenizer_type = some "GPT2BPETokenizer" then
    let vocabFp := data_dir ++ "//gpt2-vocab.json"
    let mergeFp := data_dir ++ "/gpt2-merges.txt"
    (if fs.isFile vocabFp then [] else [Event.fetch GPT2_VOCAB_URL vocabFp]) ++
    (if fs.isFile mergeFp then [] else [Event.fetch GPT2_MERGE_URL mergeFp])
  else []

/-- The side effects `prepare_dataset` performs before the registry
lookup: `os.makedirs(data_dir, exist_ok=True)` followed by the shared
tokenizer-asset resolution. -/
def dispatchPreamble (tokenizer_type : Option String) (data_dir : String) (fs : FS) :
    List Event :=
  Event.mkdir data_dir :: maybe_download_gpt2_tokenizer_data tokenizer_type data_dir fs

/-- `prepare_dataset`: resolves the data dir, runs the preamble, looks
up `dataset_name.split('/')[0].lower()` in the registry, then either
fails, no-ops on the sentinel, or constructs the downloader (with
`num_workers` forced to 1) and runs `prepare`. -/
def prepare_dataset (dataset_name : String)
    (tokenizer_type data_dir vocab_file merge_file : Option String)
    (force_redownload : Option Bool) (num_workers : Option Nat)
    (env : Env) (fs : FS) (fe : String → Int) (te : Int) :
    List Event × Except PrepError Unit :=
  let dd := data_dir.getD (env.dataDirEnv.getD "./data")
  let pre := dispatchPreamble tokenizer_type dd fs
  let key := strToLower (firstComponent dataset_name)
  match DATA_DOWNLOADERS.lookup key with
  | none => (pre, .error (.unknownDataset dataset_name knownKeys))
  | some .passSentinel => (pre, .ok ())
  | some (.dataCls cls) =>
      let ds_name :=
        if firstComponent dataset_name ∈ (["customdataset"] : List String) then
          some dataset_name
        else none
      match initDownloader tokenizer_type merge_file vocab_file (some dd)
              force_redownload (some 1) ds_name env with
      | .error e => (pre, .error e)
      | .ok d => (pre ++ (prepare cls d fs fe te).1, (prepare cls d fs fe te).2)

/-- Observation helpers over event traces. -/
def isFetchEv : Event → Bool
  | .fetch _ _ => true
  | _ => false

def isTransformEv : Event → Bool
  | .transform .. => true
  | _ => false

def isZipEv : Event → Bool
  | .writeZip _ _ => true
  | _ => false

def isRemoveEv : Event → Bool
  | .remove _ => true
  | _ => false

/-- URLs of the fetch events of a trace, in order. -/
def fetchUrls (tr : List Event) : List String :=
  tr.filterMap fun e =>
    match e with
    | .fetch u _ => some u
    | _ => none

/-- Worker count of a transform event, if the event is one. -/
def workersOf : Event → Option Nat
  | .transform _ _ _ _ _ w _ _ _ => some w
  | _ => none

/-- Input paths of the transform events of a trace, in order. -/
def transformInputs (tr : List Event) : List String :=
  tr.filterMap fun e =>
    match e with
    | .transform i _ _ _ _ _ _ _ _ => some i
    | _ => none

/-- Zip-archive writes of a trace: (archive path, entries), in order. -/
def zipWrites (tr : List Event) : List (String × List (String × String)) :=
  tr.filterMap fun e =>
    match e with
    | .writeZip p es => some (p, es)
    | _ => none

/-! Helper lemmas. -/

theorem takeWhileAppendNot (p : Char → Bool) (l1 : List Char) (c : Char) (l2 : List Char)
    (h1 : ∀ a ∈ l1, p a = true) (hc : p c = false) :
    (l1 ++ c :: l2).takeWhile p = l1 := by
  induction l1 with
  | nil => simp [List.takeWhile_cons, hc]
  | cons a rest ih =>
      have ha : p a = true := h1 a (List.mem_cons_self a rest)
      have ih2 := ih fun b hb => h1 b (List.mem_cons_of_mem a hb)
      simp [List.takeWhile_cons, ha, ih2]

theorem basename_noSlash (f : String) (hf : ('/' : Char) ∉ f.data) : basename f = f := by
  have h : f.data.reverse.takeWhile (fun c => decide (c ≠ '/')) = f.data.reverse := by
    apply List.takeWhile_eq_self_iff.mpr
    intro x hx
    rw [List.mem_reverse] at hx
    simp only [ne_eq, decide_eq_true_eq]
    intro hxe
    exact hf (hxe ▸ hx)
  show String.mk ((f.data.reverse.takeWhile _).reverse) = f
  rw [h, List.reverse_reverse]

theorem basename_slash_append (t : List Char) (f : String) (hf : ('/' : Char) ∉ f.data) :
    basename (String.mk (t ++ '/' :: f.data)) = f := by
  have hrev : (t ++ '/' :: f.data).reverse = f.data.reverse ++ '/' :: t.reverse := by
    simp
  have h1 : ∀ a ∈ f.data.reverse, (fun c => decide (c ≠ '/')) a = true := by
    intro a ha
    rw [List.mem_reverse] at ha
    simp only [ne_eq, decide_eq_true_eq]
    intro hae
    exact hf (hae ▸ ha)
  have hc : (fun c => decide (c ≠ '/')) '/' = false := by simp
  show String.mk ((_ : List Char).takeWhile _).reverse = f
  rw [show (String.mk (t ++ '/' :: f.data)).data = t ++ '/' :: f.data from rfl]
  rw [hrev, takeWhileAppendNot _ _ _ _ h1 hc, List.reverse_reverse]

theorem basename_pathJoin (dir f : String) (hf : ('/' : Char) ∉ f.data) :
    basename (pathJoin dir f) = f := by
  have hns : ¬ (strStartsWith f "/" = true) := by
    intro h1
    obtain ⟨t, ht⟩ := List.isPrefixOf_iff_prefix.mp h1
    exact hf (by rw [← ht]; simp)
  unfold pathJoin
  rw [if_neg hns]
  by_cases h2 : dir = ""
  · rw [if_pos h2]
    exact basename_noSlash f hf
  · rw [if_neg h2]
    by_cases h3 : strEndsWith dir "/" = true
    · rw [if_pos h3]
      obtain ⟨t, ht⟩ := List.isSuffixOf_iff_suffix.mp h3
      have hdf : dir ++ f = String.mk (t ++ '/' :: f.data) := by
        have : (dir ++ f).data = t ++ '/' :: f.data := by
          rw [show (dir ++ f).data = dir.data ++ f.data from rfl, ← ht]
          simp
        exact String.ext this
      rw [hdf]
      exact basename_slash_append t f hf
    · rw [if_neg h3]
      have hdf : dir ++ "/" ++ f = String.mk (dir.data ++ '/' :: f.data) := by
        have : (dir ++ "/" ++ f).data = dir.data ++ '/' :: f.data := by
          rw [show (dir ++ "/" ++ f).data = dir.data ++ '/'.toString.data ++ f.data from rfl]
          simp [Char.toString]
        exact String.ext this
      rw [hdf]
      exact basename_slash_append dir.data f hf

theorem fetchList_all_ok (fe : String → Int) (dir : String) (us : List String)
    (h : ∀ u ∈ us, fe u = 0) :
    fetchList fe dir us
      = (us.map fun u => Event.fetch u (pathJoin dir (basename u)), Except.ok ()) := by
  induction us with
  | nil => rfl
  | cons u rest ih =>
      have hu : fe u = 0 := h u (List.mem_cons_self u rest)
      have ih2 := ih fun v hv => h v (List.mem_cons_of_mem u hv)
      simp [fetchList, hu, ih2]

theorem mem_seqOps (a : List Event × Except PrepError Unit)
    (b : Unit → List Event × Except PrepError Unit) (e : Event)
    (he : e ∈ (seqOps a b).1) : e ∈ a.1 ∨ e ∈ (b ()).1 := by
  unfold seqOps at he
  split at he
  · exact Or.inl he
  · exact List.mem_append.mp he

theorem preamble_shape (tok : Option String) (dd : String) (fs : FS) (e : Event)
    (he : e ∈ dispatchPreamble tok dd fs) :
    (∃ p, e = Event.mkdir p) ∨ (∃ u dst, e = Event.fetch u dst) := by
  unfold dispatchPreamble maybe_download_gpt2_tokenizer_data at he
  rcases List.mem_cons.mp he with h | h
  · exact Or.inl ⟨dd, h⟩
  · split at h
    · rcases List.mem_append.mp h with h2 | h2
      · split at h2
        · simp at h2
        · simp at h2
          exact Or.inr ⟨_, _, h2⟩
      · split at h2
        · simp at h2
        · simp at h2
          exact Or.inr ⟨_, _, h2⟩
    · simp at h

theorem workersOf_preamble (tok : Option String) (dd : String) (fs : FS) (e : Event)
    (he : e ∈ dispatchPreamble tok dd fs) : workersOf e = none := by
  rcases preamble_shape tok dd fs e he with ⟨p, hp⟩ | ⟨u, dst, hu⟩
  · rw [hp]; rfl
  · rw [hu]; rfl

theorem workersOf_fetchList (fe : String → Int) (dir : String) (us : List String) (e : Event)
    (he : e ∈ (fetchList fe dir us).1) : workersOf e = none := by
  induction us with
  | nil => simp [fetchList] at he
  | cons u rest ih =>
      unfold fetchList at he
      split at he
      · rcases List.mem_cons.mp he with h | h
        · rw [h]; rfl
        · exact ih h
      · simp at he
        rw [he]; rfl

theorem workersOf_download (cls : DatasetClass) (d : Descriptor) (fe : String → Int)
    (fs : FS) (e : Event) (he : e ∈ (download cls d fe fs).1) : workersOf e = none := by
  unfold download at he
  split at he
  · simp at he
    rw [he]; rfl
  · rcases List.mem_cons.mp he with h | h
    · rw [h]; rfl
    · exact workersOf_fetchList _ _ _ _ h

theorem workersOf_custom (cls : DatasetClass) (d : Descriptor) (fs : FS) (e : Event)
    (he : e ∈ (customdataset_from_text cls d fs).1) : workersOf e = none := by
  simp only [customdataset_from_text] at he
  split at he
  · simp at he
    rw [he]; rfl
  · simp only [List.mem_cons, List.not_mem_nil, or_false] at he
    rcases he with h | h
    · rw [h]; rfl
    · rw [h]; rfl

theorem workersOf_tokenize (cls : DatasetClass) (d : Descriptor) (te : Int)
    (jsonl : Option String) (e : Event) (he : e ∈ (tokenize cls d te jsonl).1) :
    workersOf e = some d.num_workers := by
  unfold tokenize at he
  cases jsonl with
  | some p =>
      simp at he
      rw [he]; rfl
  | none =>
      cases h : cls.urls with
      | none => rw [h] at he; simp at he
      | some us =>
          rw [h] at he
          simp at he
          rw [he]; rfl

theorem prepare_workers (cls : DatasetClass) (d : Descriptor) (fs : FS) (fe : String → Int)
    (te : Int) (e : Event) (he : e ∈ (prepare cls d fs fe te).1) (w : Nat)
    (hw : workersOf e = some w) : w = d.num_workers := by
  unfold prepare at he
  split at he
  · rcases mem_seqOps _ _ _ he with h | h
    · rw [workersOf_custom _ _ _ _ h] at hw
      exact absurd hw (by simp)
    · have := workersOf_tokenize _ _ _ _ _ h
      rw [this] at hw
      exact (Option.some.inj hw).symm
  · split at he
    · rcases mem_seqOps _ _ _ he with h | h
      · rw [workersOf_download _ _ _ _ _ h] at hw
        exact absurd hw (by simp)
      · have := workersOf_tokenize _ _ _ _ _ h
        rw [this] at hw
        exact (Option.some.inj hw).symm
    · split at he
      · have := workersOf_tokenize _ _ _ _ _ he
        rw [this] at hw
        exact (Option.some.inj hw).symm
      · rcases mem_seqOps _ _ _ he with h | h
        · rw [workersOf_download _ _ _ _ _ h] at hw
          exact absurd hw (by simp)
        · have := workersOf_tokenize _ _ _ _ _ h
          rw [this] at hw
          exact (Option.some.inj hw).symm

theorem initDownloader_num_workers (tt mf vf dd : Option String) (fr : Option Bool)
    (nw : Option Nat) (dn : Option String) (env : Env) (d : Descriptor)
    (h : initDownloader tt mf vf dd fr nw dn env = .ok d) :
    d.num_workers = nw.getD env.cpuCount := by
  simp only [initDownloader] at h
  cases hres : resolveVocab (tt.getD "GPT2BPETokenizer")
      (dd.getD (env.dataDirEnv.getD "./data")) vf with
  | error e => rw [hres] at h; simp at h
  | ok vfv =>
      rw [hres] at h
      simp only [] at h
      injection h with h2
      rw [← h2]

/-! Concrete fixtures used by witnesses and counterexamples. -/

/-- A filesystem on which every directory and file exists. -/
def allFS : FS := ⟨fun _ => true, fun _ => true, fun _ => []⟩

/-- A filesystem on which nothing exists. -/
def emptyFS : FS := ⟨fun _ => false, fun _ => false, fun _ => []⟩

/-- An environment with no DATA_DIR variable and 4 CPUs. -/
def wEnv : Env := ⟨none, 4⟩

/-- A concrete descriptor as dispatch would build it for a standard
dataset with all defaults. -/
def wDesc : Descriptor :=
  { tokenizer_type := "GPT2BPETokenizer", merge_file := "./data/gpt2-merges.txt",
    vocab_file := some "./data/gpt2-vocab.json", data_dir := "./data",
    force_redownload := false, num_workers := 1, dataset_name := none }

/-- Storage root holding a single loose text file. -/
def c1fs : FS :=
  ⟨fun _ => false, fun _ => false, fun p => if p = "./data" then ["a.txt"] else []⟩

/-- Storage root holding a.txt, b.txt and the reserved merge table. -/
def c5fs : FS :=
  ⟨fun _ => false, fun _ => false,
   fun p => if p = "./data" then ["a.txt", "b.txt", "gpt2-merges.txt"] else []⟩

/-! Claim theorems. -/

/-- C1 (code-bug evidence): on a concrete custom-corpus run, the packager
writes the archive at the hardcoded path
`/content/gpt-neox/data/text_file.zip`, while `prepare` hands the path
`storageRoot/name/name.zip` (here `./data/customdataset/customdataset.zip`)
to the transform step, so the transform input names a file the packager
never wrote.  The claim says both steps use `storageRoot/name/name.zip`. -/
theorem c1_archive_path_mismatch :
    zipWrites (prepare_dataset "customdataset" none none none none none none
        wEnv c1fs (fun _ => 0) 0).1
      = [("/content/gpt-neox/data/text_file.zip", [("./data/a.txt", "a.txt")])] ∧
    transformInputs (prepare_dataset "customdataset" none none none none none none
        wEnv c1fs (fun _ => 0) 0).1
      = ["./data/customdataset/customdataset.zip"] ∧
    ("/content/gpt-neox/data/text_file.zip" : String)
      ≠ "./data/customdataset/customdataset.zip" := by
  refine ⟨by decide, by decide, by decide⟩

/-- C2: for every non-custom descriptor whose fetches all succeed,
`prepare` runs acquisition exactly when the force flag is set or the
dataset directory is absent, fetching every declared source once in
order, and in either case ends with exactly one transform invocation. -/
theorem c2_prepare_acquisition_gate (cls : DatasetClass) (us : List String)
    (d : Descriptor) (fs : FS) (fe : String → Int) (te : Int)
    (hu : cls.urls = some us) (hn : ¬ cls.name = "customdataset")
    (hok : ∀ u ∈ us, fe u = 0) :
    prepare cls d fs fe te =
      (if d.force_redownload = true ∨ dsExists cls d fs = false then
        Event.mkdir (pathJoin d.data_dir cls.name)
          :: us.map (fun u =>
              Event.fetch u (pathJoin (pathJoin d.data_dir cls.name) (basename u)))
          ++ [transformEvent cls d (urlsInput cls d us) te]
       else [transformEvent cls d (urlsInput cls d us) te],
       Except.ok ()) := by
  have hdl : download cls d fe fs =
      (Event.mkdir (pathJoin d.data_dir cls.name)
        :: us.map (fun u =>
            Event.fetch u (pathJoin (pathJoin d.data_dir cls.name) (basename u))),
       Except.ok ()) := by
    simp [download, hu, fetchList_all_ok fe _ us hok]
  have htok : tokenize cls d te none = ([transformEvent cls d (urlsInput cls d us) te],
      Except.ok ()) := by
    simp [tokenize, hu]
  unfold prepare
  rw [if_neg hn]
  by_cases hfr : d.force_redownload = true
  · rw [if_pos hfr, if_pos (Or.inl hfr)]
    unfold seqOps
    rw [hdl, htok]
  · rw [if_neg hfr]
    by_cases hex : dsExists cls d fs = true
    · rw [if_pos hex, if_neg ?hc]
      case hc =>
        rintro (h | h)
        · exact hfr h
        · rw [hex] at h; exact absurd h (by decide)
      exact htok
    · rw [if_neg hex, if_pos (Or.inr (Bool.not_eq_true _ ▸ hex))]
      unfold seqOps
      rw [hdl, htok]

/-- C2 witness: with the enron dataset directory already present and the
force flag clear, `prepare` performs no fetch and exactly one transform. -/
theorem c2_witness :
    prepare Enron wDesc allFS (fun _ => 0) 0
      = ([transformEvent Enron wDesc
            (urlsInput Enron wDesc ["http://eaidata.bmk.sh/data/enron_emails.jsonl.zst"]) 0],
         Except.ok ()) := by
  have h := c2_prepare_acquisition_gate Enron
      ["http://eaidata.bmk.sh/data/enron_emails.jsonl.zst"] wDesc allFS (fun _ => 0) 0
      rfl (by decide) (fun u _ => rfl)
  simpa using h

/-- C6: with no explicit vocab file, construction derives
`data_dir/gpt2-vocab.json` for the GPT2 BPE tokenizer, the fixed name
"gpt2" for the HF-wrapped tokenizer, no vocab (and no failure) for the
character-level tokenizer, and fails for any other tokenizer type. -/
theorem c6_vocab_defaults (dd : String) (mf : Option String) (fr : Option Bool)
    (nw : Option Nat) (dn : Option String) (env : Env) :
    ((initDownloader (some "GPT2BPETokenizer") mf none (some dd) fr nw dn env).map
        (fun d => d.vocab_file) = .ok (some (dd ++ "/gpt2-vocab.json"))) ∧
    ((initDownloader (some "HFGPT2Tokenizer") mf none (some dd) fr nw dn env).map
        (fun d => d.vocab_file) = .ok (some "gpt2")) ∧
    ((initDownloader (some "CharLevelTokenizer") mf none (some dd) fr nw dn env).map
        (fun d => d.vocab_file) = .ok none) ∧
    (∀ tt : String, ¬ tt = "GPT2BPETokenizer" → ¬ tt = "HFGPT2Tokenizer" →
      ¬ tt = "CharLevelTokenizer" →
      initDownloader (some tt) mf none (some dd) fr nw dn env
        = .error .noVocabFile) := by
  refine ⟨rfl, rfl, rfl, ?_⟩
  intro tt h1 h2 h3
  simp [initDownloader, resolveVocab, h1, h2, h3]

/-- C6 witness: concrete instances of the four default-resolution cases. -/
theorem c6_witness :
    initDownloader (some "SPMTokenizer") none none (some "./data") none none none wEnv
      = .error .noVocabFile ∧
    (initDownloader (some "GPT2BPETokenizer") none none (some "./data") none none none
        wEnv).map (fun d => d.vocab_file) = .ok (some "./data/gpt2-vocab.json") := by
  have h := c6_vocab_defaults "./data" none none none none wEnv
  exact ⟨h.2.2.2 "SPMTokenizer" (by decide) (by decide) (by decide), h.1⟩

/-- C8: the transform step never inspects the transform subprocess's
exit status: whenever the input-list computation itself succeeds,
`tokenize` returns normally for every exit status. -/
theorem c8_transform_exit_ignored (cls : DatasetClass) (d : Descriptor)
    (jsonl : Option String) (te : Int)
    (h : jsonl.isSome = true ∨ (cls.urls).isSome = true) :
    (tokenize cls d te jsonl).2 = .ok () := by
  cases jsonl with
  | some p => rfl
  | none =>
      cases hu : cls.urls with
      | none =>
          rcases h with h | h
          · simp at h
          · rw [hu] at h; simp at h
      | some us => simp [tokenize, hu]

/-- C8 witness: a non-zero transform exit status (7) still returns
normally. -/
theorem c8_witness : (tokenize Enron wDesc 7 none).2 = .ok () :=
  c8_transform_exit_ignored Enron wDesc none 7 (Or.inr rfl)

/-- C10: the retained `dataset_name` field is never read: every
operation of the downloader behaves identically for any two values of
it, all other state and environment equal. -/
theorem c10_dataset_name_noninterference (cls : DatasetClass) (d : Descriptor)
    (n n' : Option String) (fs : FS) (fe : String → Int) (te : Int)
    (jsonl : Option String) :
    dsExists cls { d with dataset_name := n } fs
      = dsExists cls { d with dataset_name := n' } fs ∧
    download cls { d with dataset_name := n } fe fs
      = download cls { d with dataset_name := n' } fe fs ∧
    tokenize cls { d with dataset_name := n } te jsonl
      = tokenize cls { d with dataset_name := n' } te jsonl ∧
    customdataset_from_text cls { d with dataset_name := n } fs
      = customdataset_from_text cls { d with dataset_name := n' } fs ∧
    prepare cls { d with dataset_name := n } fs fe te
      = prepare cls { d with dataset_name := n' } fs fe te := by
  cases d
  exact ⟨rfl, rfl, rfl, rfl, rfl⟩

theorem fetchUrls_cons_fetch (u dst : String) (tr : List Event) :
    fetchUrls (Event.fetch u dst :: tr) = u :: fetchUrls tr := rfl

theorem fetchUrls_cons_mkdir (p : String) (tr : List Event) :
    fetchUrls (Event.mkdir p :: tr) = fetchUrls tr := rfl

theorem fetchList_trace (fe : String → Int) (dir : String) (us : List String) :
    fetchUrls (fetchList fe dir us).1
      = us.takeWhile (fun u => decide (fe u = 0))
        ++ (us.dropWhile (fun u => decide (fe u = 0))).take 1 := by
  induction us with
  | nil => rfl
  | cons u rest ih =>
      by_cases h : fe u = 0
      · simp [fetchList, h, fetchUrls_cons_fetch, ih]
      · simp [fetchList, h, fetchUrls_cons_fetch]
        rfl

theorem fetchList_result (fe : String → Int) (dir : String) (us : List String) :
    (match (us.dropWhile (fun u => decide (fe u = 0))).head? with
     | some u => (fetchList fe dir us).2 = Except.error (.downloadError u)
     | none => (fetchList fe dir us).2 = Except.ok ()) := by
  induction us with
  | nil => simp [fetchList]
  | cons u rest ih =>
      by_cases h : fe u = 0
      · simpa [fetchList, h, List.dropWhile_cons] using ih
      · simp [fetchList, h, List.dropWhile_cons]

theorem fetchList_no_remove (fe : String → Int) (dir : String) (us : List String)
    (e : Event) (he : e ∈ (fetchList fe dir us).1) : isRemoveEv e = false := by
  induction us with
  | nil => simp [fetchList] at he
  | cons u rest ih =>
      unfold fetchList at he
      split at he
      · rcases List.mem_cons.mp he with h | h
        · rw [h]; rfl
        · exact ih h
      · simp at he
        rw [he]; rfl

/-- C7: `download` fails on the first non-zero fetch exit, fetches
every source up to and including the first failing one, performs no
removal, and never consults the filesystem (no per-file existence
check): its behaviour is identical on any two filesystems. -/
theorem c7_download_unconditional (cls : DatasetClass) (d : Descriptor)
    (us : List String) (fe : String → Int) (fs fs' : FS)
    (hu : cls.urls = some us) :
    download cls d fe fs = download cls d fe fs' ∧
    fetchUrls (download cls d fe fs).1
      = us.takeWhile (fun u => decide (fe u = 0))
        ++ (us.dropWhile (fun u => decide (fe u = 0))).take 1 ∧
    (∀ e ∈ (download cls d fe fs).1, isRemoveEv e = false) ∧
    (match (us.dropWhile (fun u => decide (fe u = 0))).head? with
     | some u => (download cls d fe fs).2 = Except.error (.downloadError u)
     | none => (download cls d fe fs).2 = Except.ok ()) := by
  refine ⟨rfl, ?_, ?_, ?_⟩
  · simp only [download, hu]
    rw [fetchUrls_cons_mkdir]
    exact fetchList_trace fe _ us
  · intro e he
    simp only [download, hu] at he
    rcases List.mem_cons.mp he with h | h
    · rw [h]; rfl
    · exact fetchList_no_remove _ _ _ _ h
  · have h := fetchList_result fe (pathJoin d.data_dir cls.name) us
    simp only [download, hu]
    exact h

/-- C7 witness: with every fetch failing, the single enron source is
still fetched (no existence check could have skipped it) and the first
failure is raised. -/
theorem c7_witness :
    download Enron wDesc (fun _ => 1) emptyFS = download Enron wDesc (fun _ => 1) allFS ∧
    fetchUrls (download Enron wDesc (fun _ => 1) emptyFS).1
      = ["http://eaidata.bmk.sh/data/enron_emails.jsonl.zst"] ∧
    (download Enron wDesc (fun _ => 1) emptyFS).2
      = Except.error (.downloadError "http://eaidata.bmk.sh/data/enron_emails.jsonl.zst") := by
  have h := c7_download_unconditional Enron wDesc
      ["http://eaidata.bmk.sh/data/enron_emails.jsonl.zst"] (fun _ => 1) emptyFS allFS rfl
  refine ⟨h.1, ?_, ?_⟩
  · rw [h.2.1]; decide
  · have h4 := h.2.2.2
    simpa using h4

/-- C3 (amended): dispatch on the sentinel key "pass" performs only the
shared preamble (storage-root creation and tokenizer-asset resolution),
returns successfully, and issues no transform and no archive write. -/
theorem c3_pass_preamble_only (tok ddir vocab merge : Option String)
    (force : Option Bool) (nw : Option Nat) (env : Env) (fs : FS)
    (fe : String → Int) (te : Int) :
    prepare_dataset "pass" tok ddir vocab merge force nw env fs fe te
      = (dispatchPreamble tok (ddir.getD (env.dataDirEnv.getD "./data")) fs,
         Except.ok ()) ∧
    (prepare_dataset "pass" tok ddir vocab merge force nw env fs fe te).1.countP
        isTransformEv = 0 ∧
    (prepare_dataset "pass" tok ddir vocab merge force nw env fs fe te).1.countP
        isZipEv = 0 := by
  have h1 : prepare_dataset "pass" tok ddir vocab merge force nw env fs fe te
      = (dispatchPreamble tok (ddir.getD (env.dataDirEnv.getD "./data")) fs,
         Except.ok ()) := rfl
  refine ⟨h1, ?_, ?_⟩ <;>
  · rw [h1]
    refine List.countP_eq_zero.mpr ?_
    intro e he
    rcases preamble_shape _ _ _ e he with ⟨p, hp⟩ | ⟨u, dst, hud⟩
    · rw [hp]; simp [isTransformEv, isZipEv]
    · rw [hud]; simp [isTransformEv, isZipEv]

/-- C3 counterexample: with the tokenizer assets absent, dispatch on
the sentinel key "pass" still creates the storage root and invokes an
external fetch, so it is not a no-op as the claim states. -/
theorem c3_pass_not_noop :
    Event.mkdir "./data"
      ∈ (prepare_dataset "pass" none none none none none none wEnv emptyFS
          (fun _ => 0) 0).1 ∧
    Event.fetch GPT2_VOCAB_URL "./data//gpt2-vocab.json"
      ∈ (prepare_dataset "pass" none none none none none none wEnv emptyFS
          (fun _ => 0) 0).1 := by
  refine ⟨by decide, by decide⟩

/-- C4 (amended): for an unknown registry key, dispatch fails with the
unknown-dataset error listing the known keys, but only after the
storage root has been created and the shared tokenizer assets resolved. -/
theorem c4_unknown_dataset (name : String) (tok ddir vocab merge : Option String)
    (force : Option Bool) (nw : Option Nat) (env : Env) (fs : FS)
    (fe : String → Int) (te : Int)
    (h : DATA_DOWNLOADERS.lookup (strToLower (firstComponent name)) = none) :
    prepare_dataset name tok ddir vocab merge force nw env fs fe te
      = (dispatchPreamble tok (ddir.getD (env.dataDirEnv.getD "./data")) fs,
         Except.error (.unknownDataset name knownKeys)) := by
  simp only [prepare_dataset]
  rw [h]

/-- C4 counterexample: on an unknown key with tokenizer assets absent,
the failure does list the known keys, but directory creation and a
network fetch have already been attempted before it, contradicting the
claim's "never attempts" part. -/
theorem c4_unknown_not_early :
    (prepare_dataset "nosuchdataset" none none none none none none wEnv emptyFS
        (fun _ => 0) 0).2
      = Except.error (.unknownDataset "nosuchdataset" knownKeys) ∧
    Event.mkdir "./data"
      ∈ (prepare_dataset "nosuchdataset" none none none none none none wEnv emptyFS
          (fun _ => 0) 0).1 ∧
    Event.fetch GPT2_VOCAB_URL "./data//gpt2-vocab.json"
      ∈ (prepare_dataset "nosuchdataset" none none none none none none wEnv emptyFS
          (fun _ => 0) 0).1 := by
  refine ⟨rfl, by decide, by decide⟩

/-- C4 witness: a concrete unknown key yields the amended behaviour. -/
theorem c4_witness :
    prepare_dataset "no_such_key" none none none none none none wEnv allFS
        (fun _ => 0) 0
      = (dispatchPreamble none "./data" allFS,
         Except.error (.unknownDataset "no_such_key" knownKeys)) := by
  have h := c4_unknown_dataset "no_such_key" none none none none none none wEnv allFS
      (fun _ => 0) 0 (by decide)
  exact h

/-- C5: packaging scans the storage root itself, its filter admits
exactly the .txt files other than the reserved merge table, an empty
qualifying set fails before any archive write, and otherwise the
archive holds exactly the qualifying files flattened to basenames. -/
theorem c5_custom_packaging (cls : DatasetClass) (d : Descriptor) (fs : FS)
    (hsl : ∀ f ∈ fs.listDir d.data_dir, ('/' : Char) ∉ f.data) :
    (∀ f, f ∈ qualifyingTxtFiles d fs ↔
       f ∈ fs.listDir d.data_dir ∧ strEndsWith f ".txt" = true
         ∧ ¬ f = "gpt2-merges.txt") ∧
    (qualifyingTxtFiles d fs = [] →
       customdataset_from_text cls d fs
         = ([Event.mkdir (pathJoin d.data_dir cls.name)],
            Except.error (.noTextFile d.data_dir))) ∧
    (¬ qualifyingTxtFiles d fs = [] →
       (customdataset_from_text cls d fs).2 = Except.ok () ∧
       zipWrites (customdataset_from_text cls d fs).1
         = [("/content/gpt-neox/data/text_file.zip",
             (qualifyingTxtFiles d fs).map fun f => (pathJoin d.data_dir f, f))]) := by
  refine ⟨?_, ?_, ?_⟩
  · intro f
    unfold qualifyingTxtFiles
    rw [List.mem_filter]
    constructor
    · rintro ⟨h1, h2⟩
      rw [Bool.and_eq_true] at h2
      exact ⟨h1, h2.1, by simpa using h2.2⟩
    · rintro ⟨h1, h2, h3⟩
      refine ⟨h1, ?_⟩
      rw [Bool.and_eq_true]
      exact ⟨h2, by simpa using h3⟩
  · intro h0
    simp [customdataset_from_text, h0]
  · intro hne
    have hne2 : (qualifyingTxtFiles d fs).isEmpty = false := by
      cases hqt : qualifyingTxtFiles d fs with
      | nil => exact absurd hqt hne
      | cons a l => rfl
    have hmap : (qualifyingTxtFiles d fs).map
          (fun f => (pathJoin d.data_dir f, basename (pathJoin d.data_dir f)))
        = (qualifyingTxtFiles d fs).map (fun f => (pathJoin d.data_dir f, f)) := by
      apply List.map_congr_left
      intro f hf
      have hfl : f ∈ fs.listDir d.data_dir := (List.mem_filter.mp hf).1
      rw [basename_pathJoin _ _ (hsl f hfl)]
    constructor
    · simp [customdataset_from_text, hne2]
    · simp [customdataset_from_text, hne2, zipWrites, hmap]

/-- C5 witness: a storage root holding a.txt, b.txt and gpt2-merges.txt
packages exactly a.txt and b.txt. -/
theorem c5_witness :
    (customdataset_from_text CustomDataset wDesc c5fs).2 = Except.ok () ∧
    zipWrites (customdataset_from_text CustomDataset wDesc c5fs).1
      = [("/content/gpt-neox/data/text_file.zip",
          [("./data/a.txt", "a.txt"), ("./data/b.txt", "b.txt")])] := by
  have h := (c5_custom_packaging CustomDataset wDesc c5fs (by decide)).2.2 (by decide)
  refine ⟨h.1, ?_⟩
  rw [h.2]
  decide

/-- C9: every transform invocation issued through dispatch carries
worker count 1, for every dataset name and caller-supplied worker
count. -/
theorem c9_workers_forced_one (name : String) (tok ddir vocab merge : Option String)
    (force : Option Bool) (nw : Option Nat) (env : Env) (fs : FS)
    (fe : String → Int) (te : Int) (e : Event)
    (he : e ∈ (prepare_dataset name tok ddir vocab merge force nw env fs fe te).1)
    (w : Nat) (hw : workersOf e = some w) : w = 1 := by
  simp only [prepare_dataset] at he
  split at he
  · rw [workersOf_preamble _ _ _ _ he] at hw
    exact absurd hw (by simp)
  · rw [workersOf_preamble _ _ _ _ he] at hw
    exact absurd hw (by simp)
  · split at he
    · rw [workersOf_preamble _ _ _ _ he] at hw
      exact absurd hw (by simp)
    · rename_i d hinit
      rcases List.mem_append.mp he with h | h
      · rw [workersOf_preamble _ _ _ _ h] at hw
        exact absurd hw (by simp)
      · have hww := prepare_workers _ _ _ _ _ _ h w hw
        have hnw := initDownloader_num_workers _ _ _ _ _ (some 1) _ _ _ hinit
        rw [hww, hnw]
        rfl

/-- The last event of a concrete dispatch run on enron with
caller-supplied worker count 64. -/
def c9ev : Event :=
  ((prepare_dataset "enron" none none none none none (some 64) wEnv allFS
      (fun _ => 0) 0).1).getLastD (Event.mkdir "")

/-- C9 witness: the transform event of that run carries worker count 1
despite the caller asking for 64. -/
theorem c9_witness : workersOf c9ev = some 1 := by
  obtain ⟨w, hw⟩ : ∃ w, workersOf c9ev = some w := ⟨1, by decide⟩
  have hone := c9_workers_forced_one "enron" none none none none none (some 64) wEnv
      allFS (fun _ => 0) 0 c9ev (by decide) w hw
  rw [hw, hone]

end Corpora
